import Mathlib

/-!
Shallow embedding of the gherkin-lite naming and dispatch layer.

The repository wraps a host test framework (Playwright) with Gherkin-style
vocabulary.  The embedded code is the label-composition, scenario-dispatch and
scenario-outline logic of the repository's `gherkinSyntax` module, in the
variants present in the repository:

* `GherkinLite.TsSrc` — `src/gherkinSyntax.ts` (the early variant; step helpers
  interpolate the description verbatim, `scenarioOutline` registers via the
  grouping primitive `test.describe` with a `JSON.stringify` rendering);
* `GherkinLite.V3` — `unnamed/part_003` (the current variant, matching
  `dist/gherkinSyntax.js`; a `label` helper trims the description and the
  scenario keyword is the string `"Scenario :"`);
* `GherkinLite.V4` — `unnamed/part_004` (both of its `scenarioOutline`
  functions register via the standard `test` primitive with a
  `field=value` rendering);
* `GherkinLite.V5` — `unnamed/part_005` (scenario dispatch with the keyword
  `"Scenario: "` interpolated directly);
* `GherkinLite.V6` — `unnamed/part_006` (a `scenario` whose tag suffix is
  gated on the presence of the options record).

Host primitives (`test`, `test.skip`, `test.only`, `test.step`,
`test.describe`) are modelled as constructors of registration records: a call
to the layer is fully described by which registration it hands to the host,
with which title and which callback.
-/

namespace GherkinLite

/-- Whitespace predicate of JavaScript `String.prototype.trim` (the
descriptions in this repository only use ASCII whitespace). -/
def jsWs (c : Char) : Bool := c.isWhitespace

/-- Model of JavaScript `String.prototype.trim`: remove leading and trailing
whitespace, keep interior whitespace verbatim. -/
def jsTrim (s : String) : String :=
  ⟨((s.data.dropWhile jsWs).reverse.dropWhile jsWs).reverse⟩

/-- Executable string-prefix test (`p` begins the string `s`). -/
def beginsWith (p s : String) : Bool := p.data.isPrefixOf s.data

/-- Field values of an example record, as they occur in the repository's
outline examples: strings and (integer) numbers. -/
inductive JsValue where
  | str (s : String)
  | num (n : Int)
deriving DecidableEq

/-- JavaScript template-literal rendering of a field value (the host
language's ToString on the value). -/
def jsValToString : JsValue → String
  | .str s => s
  | .num n => toString n

/-- An example record: an ordered association list of fields, reflecting the
key iteration order of a JavaScript object literal. -/
abbrev Example := List (String × JsValue)

/-- JSON escape of one character (quote and backslash; the repository's
examples contain no control characters). -/
def jsonEscapeChar (c : Char) : String :=
  if c = '"' then "\\\"" else if c = '\\' then "\\\\" else String.singleton c

/-- JSON string quoting, used by the model of `JSON.stringify`. -/
def jsonQuote (s : String) : String :=
  "\"" ++ String.join (s.data.map jsonEscapeChar) ++ "\""

/-- JSON rendering of a field value. -/
def jsonRender : JsValue → String
  | .str s => jsonQuote s
  | .num n => toString n

/-- Model of the host language's `JSON.stringify` on a flat record of
string/number fields, in key iteration order. -/
def jsonStringify (ex : Example) : String :=
  "\x7b" ++
    String.intercalate ","
      (ex.map fun kv => jsonQuote kv.1 ++ ":" ++ jsonRender kv.2)
    ++ "\x7d"

/-- The callback value handed to a host test-registration primitive: either
the caller's callback forwarded as-is (possibly `undefined`, modelled as
`none`), or the placeholder closure `async () => test.fixme(true, message)`
that the `todo` path registers instead of any caller callback. -/
inductive RegisteredCb (Cb : Type) where
  | passthrough (fn : Option Cb)
  | fixme (message : String)
deriving DecidableEq

/-- One host-framework registration performed by the scenario dispatch:
`test`, `test.skip` or `test.only`, with its title and callback. -/
inductive HostReg (Cb : Type) where
  | test (title : String) (cb : RegisteredCb Cb)
  | testSkip (title : String) (cb : RegisteredCb Cb)
  | testOnly (title : String) (cb : RegisteredCb Cb)
deriving DecidableEq

/-- Title of a host registration. -/
def regTitle {Cb : Type} : HostReg Cb → String
  | .test t _ => t
  | .testSkip t _ => t
  | .testOnly t _ => t

/-- Callback of a host registration. -/
def regCb {Cb : Type} : HostReg Cb → RegisteredCb Cb
  | .test _ c => c
  | .testSkip _ c => c
  | .testOnly _ c => c

/-- Result of the host's `test.step` primitive: it records the title and the
callback, and its value is returned unmodified by the step helpers. -/
structure StepCall (Cb : Type) where
  title : String
  fn : Cb

/-- Host primitive `test.step`. -/
def testStep {Cb : Type} (title : String) (fn : Cb) : StepCall Cb :=
  ⟨title, fn⟩

/-- Execute the callback recorded in a step registration: the host framework
awaits the callback, and whatever the callback produces (success or failure)
is what the host surfaces. -/
def runStep {E A : Type} (s : StepCall (Unit → Except E A)) : Except E A :=
  s.fn ()

/-- Scenario options record: `{ tags?: string[] }`. -/
structure ScenarioOptions where
  tags : Option (List String)
deriving DecidableEq

/-- The second positional argument of a `scenario` call before shape
inspection: a function value or an options record. -/
inductive FnOrOptions (Cb : Type) where
  | fnArg (f : Cb)
  | optsArg (o : ScenarioOptions)
deriving DecidableEq

/-- `const isFn = typeof fnOrOptions === 'function';` -/
def isFnArg {Cb : Type} : Option (FnOrOptions Cb) → Bool
  | some (.fnArg _) => true
  | _ => false

/-- `const fn = isFn ? fnOrOptions as ScenarioCallback : undefined;` -/
def effectiveFn {Cb : Type} : Option (FnOrOptions Cb) → Option Cb
  | some (.fnArg f) => some f
  | _ => none

/-- `const options = isFn ? maybeOptions : fnOrOptions as ScenarioOptions;`
(when the second argument is absent, `options` is that absent value). -/
def effectiveOptions {Cb : Type} :
    Option (FnOrOptions Cb) → Option ScenarioOptions → Option ScenarioOptions
  | some (.fnArg _), maybeOptions => maybeOptions
  | some (.optsArg o), _ => some o
  | none, _ => none

/-- `const tagString = options?.tags ? ` - Tags: ...` : '';`  In JavaScript
`options?.tags` is `undefined` (falsy) when `options` or its `tags` field is
absent, and an array — truthy even when empty — otherwise. -/
def tagString : Option ScenarioOptions → String
  | some o =>
    match o.tags with
    | some ts => " - Tags: " ++ String.intercalate " " ts
    | none => ""
  | none => ""

/-- The four scenario modifiers; the `modifier` parameter of `makeScenario`
is `Option Modifier` (`none` is the normal path). -/
inductive Modifier where
  | skip
  | only
  | todo
deriving DecidableEq

/-- One host registration produced by a scenario-outline expansion: the
standard `test` primitive or the grouping `test.describe` primitive, with the
title, the outline callback and the example bound into the registered
closure. -/
inductive OutlineReg (F : Type) where
  | test (title : String) (fn : F) (boundExample : Example)
  | describeBlock (title : String) (fn : F) (boundExample : Example)
deriving DecidableEq

/-- Title of an outline registration. -/
def outlineTitle {F : Type} : OutlineReg F → String
  | .test t _ _ => t
  | .describeBlock t _ _ => t

/-- Whether an outline registration went through the standard `test`
primitive (rather than the grouping `test.describe` primitive). -/
def isOutlineTest {F : Type} : OutlineReg F → Bool
  | .test _ _ _ => true
  | .describeBlock _ _ _ => false

end GherkinLite

namespace GherkinLite.TsSrc

/-- `src/gherkinSyntax.ts` line 12: `test.step(`Given ${description}`, fn)`;
the same expression also appears verbatim in `part_004`, `part_005` and
`part_006`. -/
def given {Cb : Type} (description : String) (fn : Cb) : StepCall Cb :=
  testStep ("Given " ++ description) fn

/-- `src/gherkinSyntax.ts` line 26: the `when` step helper. -/
def whenStep {Cb : Type} (description : String) (fn : Cb) : StepCall Cb :=
  testStep ("When " ++ description) fn

/-- `src/gherkinSyntax.ts` line 39: the `then` step helper (`then` is a
reserved word in Lean, hence the name `thenStep`). -/
def thenStep {Cb : Type} (description : String) (fn : Cb) : StepCall Cb :=
  testStep ("Then " ++ description) fn

/-- `src/gherkinSyntax.ts` line 52: the `and` step helper. -/
def andStep {Cb : Type} (description : String) (fn : Cb) : StepCall Cb :=
  testStep ("And " ++ description) fn

/-- `src/gherkinSyntax.ts` line 65: the `but` step helper. -/
def butStep {Cb : Type} (description : String) (fn : Cb) : StepCall Cb :=
  testStep ("But " ++ description) fn

/-- `src/gherkinSyntax.ts` lines 117-125: for each example, register
`test.describe(`Scenario Outline: ${title} | ${JSON.stringify(example)}`,
() => fn(example))`, one registration per example, in list order. -/
def scenarioOutline {F : Type} (title : String) (examples : List Example)
    (fn : F) : List (OutlineReg F) :=
  match examples with
  | [] => []
  | ex :: rest =>
    OutlineReg.describeBlock
        ("Scenario Outline: " ++ title ++ " | " ++ jsonStringify ex)
        fn ex
      :: scenarioOutline title rest fn

end GherkinLite.TsSrc

namespace GherkinLite.V3

/-- `part_003` line 9: the step/feature/scenario keyword union type. -/
inductive Keyword where
  | givenK
  | whenK
  | thenK
  | andK
  | butK
  | featureColon
  | scenarioColon
deriving DecidableEq

/-- The keyword strings of `part_003` line 9. -/
def Keyword.text : Keyword → String
  | .givenK => "Given"
  | .whenK => "When"
  | .thenK => "Then"
  | .andK => "And"
  | .butK => "But"
  | .featureColon => "Feature :"
  | .scenarioColon => "Scenario :"

/-- `part_003` line 9: `const label = (k, d) => `${k} ${d.trim()}`;` -/
def label (k : Keyword) (d : String) : String :=
  k.text ++ " " ++ jsTrim d

/-- `part_003` line 19: `test.step(label('Given', description), fn)`. -/
def given {Cb : Type} (description : String) (fn : Cb) : StepCall Cb :=
  testStep (label .givenK description) fn

/-- `part_003` line 31: the `when` step helper. -/
def whenStep {Cb : Type} (description : String) (fn : Cb) : StepCall Cb :=
  testStep (label .whenK description) fn

/-- `part_003` line 43: the `then` step helper. -/
def thenStep {Cb : Type} (description : String) (fn : Cb) : StepCall Cb :=
  testStep (label .thenK description) fn

/-- `part_003` line 55: the `and` step helper. -/
def andStep {Cb : Type} (description : String) (fn : Cb) : StepCall Cb :=
  testStep (label .andK description) fn

/-- `part_003` line 67: the `but` step helper. -/
def butStep {Cb : Type} (description : String) (fn : Cb) : StepCall Cb :=
  testStep (label .butK description) fn

/-- `part_003` lines 114-133 (also `dist/gherkinSyntax.js`): the scenario
dispatch.  The title is `label('Scenario :', `${description}${tagString}`)`
and the modifier selects the host registration path. -/
def makeScenario {Cb : Type} (modifier : Option Modifier)
    (description : String) (fnOrOptions : Option (FnOrOptions Cb))
    (maybeOptions : Option ScenarioOptions) : HostReg Cb :=
  let fn := effectiveFn fnOrOptions
  let options := effectiveOptions fnOrOptions maybeOptions
  let tagStr := tagString options
  let title := label .scenarioColon (description ++ tagStr)
  match modifier with
  | some .skip => .testSkip ("[SKIPPED] " ++ title) (.passthrough fn)
  | some .only => .testOnly ("[ONLY] " ++ title) (.passthrough fn)
  | some .todo => .test ("[TODO] " ++ title) (.fixme "Test not implemented yet")
  | none => .test title (.passthrough fn)

end GherkinLite.V3

namespace GherkinLite.V4

/-- `part_004` lines 144-158 and 302-315: both `scenarioOutline` functions
register, for each example in list order,
`test(`Scenario Outline: ${title} | ${testName}`, ...)` where `testName`
renders the fields as `key=value` joined with `", "`; the registered closure
binds the example (the context-aware variant additionally binds the host
fixtures, which carry no information for the registration itself). -/
def scenarioOutline {F : Type} (title : String) (examples : List Example)
    (fn : F) : List (OutlineReg F) :=
  match examples with
  | [] => []
  | ex :: rest =>
    OutlineReg.test
        ("Scenario Outline: " ++ title ++ " | " ++
          String.intercalate ", "
            (ex.map fun kv => kv.1 ++ "=" ++ jsValToString kv.2))
        fn ex
      :: scenarioOutline title rest fn

end GherkinLite.V4

namespace GherkinLite.V5

/-- `part_005` lines 106-125: the scenario dispatch with the title
`` `Scenario: ${description}${tagString}` ``. -/
def makeScenario {Cb : Type} (modifier : Option Modifier)
    (description : String) (fnOrOptions : Option (FnOrOptions Cb))
    (maybeOptions : Option ScenarioOptions) : HostReg Cb :=
  let fn := effectiveFn fnOrOptions
  let options := effectiveOptions fnOrOptions maybeOptions
  let tagStr := tagString options
  let title := "Scenario: " ++ description ++ tagStr
  match modifier with
  | some .skip => .testSkip ("[SKIPPED] " ++ title) (.passthrough fn)
  | some .only => .testOnly ("[ONLY] " ++ title) (.passthrough fn)
  | some .todo => .test ("[TODO] " ++ title) (.fixme "Test not implemented yet")
  | none => .test title (.passthrough fn)

end GherkinLite.V5

namespace GherkinLite.V6

/-- Template interpolation of `options?.tags?.join(' ')`: JavaScript
stringifies `undefined` to the text `"undefined"` inside a template
literal. -/
def jsOptionalJoin : Option (List String) → String
  | some ts => String.intercalate " " ts
  | none => "undefined"

/-- `part_006` lines 105-112: the tag suffix is gated on the presence of the
options record (`options ? ` - Tags: ${options?.tags?.join(' ')}` : ''`), not
on a non-empty tag list. -/
def scenario {Cb : Type} (description : String) (fn : Cb)
    (options : Option ScenarioOptions) : HostReg Cb :=
  let tagStr :=
    match options with
    | some o => " - Tags: " ++ jsOptionalJoin o.tags
    | none => ""
  .test ("Scenario: " ++ description ++ tagStr) (.passthrough (some fn))

end GherkinLite.V6

namespace GherkinLite

/-- Regrouping of string concatenation: merging a marker prefix with the
keyword that follows it. -/
theorem append_regroup (a b c t : String) :
    a ++ ((b ++ c) ++ t) = ((a ++ b) ++ c) ++ t := by
  rw [String.append_assoc b c t, ← String.append_assoc a b (c ++ t),
    ← String.append_assoc (a ++ b) c t]

end GherkinLite

namespace GherkinLite.V4

/-- The part_004 outline expansion is the map over the example list, in list
order, of the titled standard-test registration. -/
theorem outlineV4_eq_map {F : Type} (title : String)
    (examples : List Example) (fn : F) :
    scenarioOutline title examples fn =
      examples.map (fun ex =>
        OutlineReg.test
          ("Scenario Outline: " ++ title ++ " | " ++
            String.intercalate ", "
              (ex.map fun kv => kv.1 ++ "=" ++ jsValToString kv.2))
          fn ex) := by
  induction examples with
  | nil => rfl
  | cons e r ih => simp [scenarioOutline, ih]

/-- The part_004 outline expansion produces one registration per example. -/
theorem outlineV4_length {F : Type} (title : String)
    (examples : List Example) (fn : F) :
    (scenarioOutline title examples fn).length = examples.length := by
  rw [outlineV4_eq_map]
  exact List.length_map _ _

end GherkinLite.V4

namespace GherkinLite.TsSrc

/-- The gherkinSyntax.ts outline expansion is the map over the example list,
in list order, of the titled describe registration. -/
theorem outlineTs_eq_map {F : Type} (title : String)
    (examples : List Example) (fn : F) :
    scenarioOutline title examples fn =
      examples.map (fun ex =>
        OutlineReg.describeBlock
          ("Scenario Outline: " ++ title ++ " | " ++ jsonStringify ex)
          fn ex) := by
  induction examples with
  | nil => rfl
  | cons e r ih => simp [scenarioOutline, ih]

/-- The gherkinSyntax.ts outline expansion produces one registration per
example. -/
theorem outlineTs_length {F : Type} (title : String)
    (examples : List Example) (fn : F) :
    (scenarioOutline title examples fn).length = examples.length := by
  rw [outlineTs_eq_map]
  exact List.length_map _ _

end GherkinLite.TsSrc

namespace GherkinLite

/-- C6: the scenario dispatch distinguishes the two call shapes by runtime
shape inspection of the second positional argument: a function value becomes
the effective callback with the third argument (possibly absent) as the
effective options record; a non-function second argument leaves the effective
callback undefined and is itself taken as the effective options record (in
particular, an absent second argument leaves both undefined). -/
theorem C6_argument_shape_dispatch {Cb : Type} (f : Cb) (o : ScenarioOptions)
    (mo : Option ScenarioOptions) :
    isFnArg (some (FnOrOptions.fnArg f)) = true
  ∧ effectiveFn (some (FnOrOptions.fnArg f)) = some f
  ∧ effectiveOptions (some (FnOrOptions.fnArg f)) mo = mo
  ∧ isFnArg (some (FnOrOptions.optsArg o) : Option (FnOrOptions Cb)) = false
  ∧ effectiveFn (some (FnOrOptions.optsArg o) : Option (FnOrOptions Cb)) = none
  ∧ effectiveOptions (some (FnOrOptions.optsArg o) : Option (FnOrOptions Cb)) mo
      = some o
  ∧ isFnArg (none : Option (FnOrOptions Cb)) = false
  ∧ effectiveFn (none : Option (FnOrOptions Cb)) = none
  ∧ effectiveOptions (none : Option (FnOrOptions Cb)) mo = none :=
  ⟨rfl, rfl, rfl, rfl, rfl, rfl, rfl, rfl, rfl⟩

/-- C8: when the effective callback is missing (the second argument is absent
or is an options record), the normal, skip and only paths perform no
validation of their own: the dispatch is total and forwards the undefined
callback to the host registration primitive, in both the part_005 and
part_003 variants. -/
theorem C8_missing_callback_forwarded {Cb : Type} (m : Option Modifier)
    (h : m ≠ some Modifier.todo) (d : String) (o : ScenarioOptions)
    (mo : Option ScenarioOptions) :
    regCb (V5.makeScenario m d (none : Option (FnOrOptions Cb)) mo)
      = RegisteredCb.passthrough none
  ∧ regCb (V5.makeScenario m d (some (FnOrOptions.optsArg o) :
        Option (FnOrOptions Cb)) mo) = RegisteredCb.passthrough none
  ∧ regCb (V3.makeScenario m d (none : Option (FnOrOptions Cb)) mo)
      = RegisteredCb.passthrough none
  ∧ regCb (V3.makeScenario m d (some (FnOrOptions.optsArg o) :
        Option (FnOrOptions Cb)) mo) = RegisteredCb.passthrough none := by
  match m with
  | none => exact ⟨rfl, rfl, rfl, rfl⟩
  | some Modifier.skip => exact ⟨rfl, rfl, rfl, rfl⟩
  | some Modifier.only => exact ⟨rfl, rfl, rfl, rfl⟩
  | some Modifier.todo => exact absurd rfl h

/-- Witness for C8 at the skip modifier, description "Fails on CI", an
options record with no tags, and no third argument. -/
theorem C8_missing_callback_forwarded_witness :
    (some Modifier.skip ≠ some Modifier.todo)
  ∧ (regCb (V5.makeScenario (some Modifier.skip) "Fails on CI"
        (none : Option (FnOrOptions Unit)) none)
      = RegisteredCb.passthrough none
    ∧ regCb (V5.makeScenario (some Modifier.skip) "Fails on CI"
        (some (FnOrOptions.optsArg ⟨none⟩) : Option (FnOrOptions Unit)) none)
      = RegisteredCb.passthrough none
    ∧ regCb (V3.makeScenario (some Modifier.skip) "Fails on CI"
        (none : Option (FnOrOptions Unit)) none)
      = RegisteredCb.passthrough none
    ∧ regCb (V3.makeScenario (some Modifier.skip) "Fails on CI"
        (some (FnOrOptions.optsArg ⟨none⟩) : Option (FnOrOptions Unit)) none)
      = RegisteredCb.passthrough none) :=
  ⟨by decide,
    C8_missing_callback_forwarded (some Modifier.skip) (by decide)
      "Fails on CI" ⟨none⟩ none⟩

/-- C9: each of the five step entry points (given, when, then, and, but), in
the gherkinSyntax.ts shape shared by part_004/005/006 and in the part_003
shape, hands the caller's callback unchanged to the host step primitive and
returns the host primitive's result unmodified; running the registered
callback yields exactly what the caller's callback yields, success or
failure, with no translation by this layer. -/
theorem C9_step_passthrough {E A : Type} (d : String)
    (f : Unit → Except E A) :
    TsSrc.given d f = testStep ("Given " ++ d) f
  ∧ runStep (TsSrc.given d f) = f ()
  ∧ TsSrc.whenStep d f = testStep ("When " ++ d) f
  ∧ runStep (TsSrc.whenStep d f) = f ()
  ∧ TsSrc.thenStep d f = testStep ("Then " ++ d) f
  ∧ runStep (TsSrc.thenStep d f) = f ()
  ∧ TsSrc.andStep d f = testStep ("And " ++ d) f
  ∧ runStep (TsSrc.andStep d f) = f ()
  ∧ TsSrc.butStep d f = testStep ("But " ++ d) f
  ∧ runStep (TsSrc.butStep d f) = f ()
  ∧ V3.given d f = testStep (V3.label V3.Keyword.givenK d) f
  ∧ runStep (V3.given d f) = f ()
  ∧ V3.whenStep d f = testStep (V3.label V3.Keyword.whenK d) f
  ∧ runStep (V3.whenStep d f) = f ()
  ∧ V3.thenStep d f = testStep (V3.label V3.Keyword.thenK d) f
  ∧ runStep (V3.thenStep d f) = f ()
  ∧ V3.andStep d f = testStep (V3.label V3.Keyword.andK d) f
  ∧ runStep (V3.andStep d f) = f ()
  ∧ V3.butStep d f = testStep (V3.label V3.Keyword.butK d) f
  ∧ runStep (V3.butStep d f) = f () :=
  ⟨rfl, rfl, rfl, rfl, rfl, rfl, rfl, rfl, rfl, rfl, rfl, rfl, rfl, rfl, rfl,
    rfl, rfl, rfl, rfl, rfl⟩

/-- C10: in the part_006 scenario variant the tag suffix is gated on the
presence of the options record, so a present options record without a tags
field yields the title "Scenario: " ++ d ++ " - Tags: undefined", while an
absent options record yields no suffix. -/
theorem C10_tag_suffix_gated_on_options {Cb : Type} (d : String) (f : Cb) :
    V6.scenario d f (some ⟨none⟩) =
      HostReg.test ("Scenario: " ++ d ++ " - Tags: undefined")
        (RegisteredCb.passthrough (some f))
  ∧ V6.scenario d f none =
      HostReg.test ("Scenario: " ++ d) (RegisteredCb.passthrough (some f)) :=
  ⟨rfl,
    congrArg (fun s => HostReg.test s (RegisteredCb.passthrough (some f)))
      (String.append_empty ("Scenario: " ++ d))⟩

end GherkinLite

namespace GherkinLite

/-- C1 counterexample: in the part_003 dispatch (the variant shipped in
dist/gherkinSyntax.js) the scenario keyword is "Scenario :", so scenario.skip
produces the title "[SKIPPED] Scenario : User logs in", which does not begin
with "[SKIPPED] Scenario: " as the claim states. -/
theorem C1_counterexample :
    regTitle (V3.makeScenario (some Modifier.skip) "User logs in"
        (some (FnOrOptions.fnArg ()) : Option (FnOrOptions Unit)) none)
      = "[SKIPPED] Scenario : User logs in"
  ∧ beginsWith "[SKIPPED] Scenario: "
      (regTitle (V3.makeScenario (some Modifier.skip) "User logs in"
        (some (FnOrOptions.fnArg ()) : Option (FnOrOptions Unit)) none))
      = false :=
  ⟨by decide, by decide⟩

/-- C1 (amended): for every description, second argument and options record,
each of the four modifiers maps to exactly one host registration path with
its marker: normal forwards the synthesized title and the caller's callback
to the standard test primitive with no marker; skip prepends "[SKIPPED] " and
forwards the title and the caller's callback untouched to the skip primitive;
only prepends "[ONLY] " and forwards to the exclusive primitive; todo
prepends "[TODO] ".  In the part_005 variant the skip/only/todo titles
therefore begin "[SKIPPED] Scenario: ", "[ONLY] Scenario: " and
"[TODO] Scenario: "; in the part_003 variant the scenario keyword is
"Scenario :", so they begin "[SKIPPED] Scenario : ", "[ONLY] Scenario : "
and "[TODO] Scenario : " (a space before the colon). -/
theorem C1_modifier_dispatch {Cb : Type} (d : String)
    (a : Option (FnOrOptions Cb)) (mo : Option ScenarioOptions) :
    V5.makeScenario none d a mo =
      HostReg.test ("Scenario: " ++ d ++ tagString (effectiveOptions a mo))
        (RegisteredCb.passthrough (effectiveFn a))
  ∧ V5.makeScenario (some Modifier.skip) d a mo =
      HostReg.testSkip
        ("[SKIPPED] Scenario: " ++ d ++ tagString (effectiveOptions a mo))
        (RegisteredCb.passthrough (effectiveFn a))
  ∧ V5.makeScenario (some Modifier.only) d a mo =
      HostReg.testOnly
        ("[ONLY] Scenario: " ++ d ++ tagString (effectiveOptions a mo))
        (RegisteredCb.passthrough (effectiveFn a))
  ∧ V5.makeScenario (some Modifier.todo) d a mo =
      HostReg.test
        ("[TODO] Scenario: " ++ d ++ tagString (effectiveOptions a mo))
        (RegisteredCb.fixme "Test not implemented yet")
  ∧ V3.makeScenario none d a mo =
      HostReg.test
        ("Scenario : " ++ jsTrim (d ++ tagString (effectiveOptions a mo)))
        (RegisteredCb.passthrough (effectiveFn a))
  ∧ V3.makeScenario (some Modifier.skip) d a mo =
      HostReg.testSkip
        ("[SKIPPED] Scenario : " ++
          jsTrim (d ++ tagString (effectiveOptions a mo)))
        (RegisteredCb.passthrough (effectiveFn a))
  ∧ V3.makeScenario (some Modifier.only) d a mo =
      HostReg.testOnly
        ("[ONLY] Scenario : " ++
          jsTrim (d ++ tagString (effectiveOptions a mo)))
        (RegisteredCb.passthrough (effectiveFn a))
  ∧ V3.makeScenario (some Modifier.todo) d a mo =
      HostReg.test
        ("[TODO] Scenario : " ++
          jsTrim (d ++ tagString (effectiveOptions a mo)))
        (RegisteredCb.fixme "Test not implemented yet") := by
  refine ⟨rfl, ?_, ?_, ?_, rfl, ?_, ?_, ?_⟩
  · exact congrArg
      (fun s => HostReg.testSkip s
        (RegisteredCb.passthrough (effectiveFn a)))
      (append_regroup "[SKIPPED] " "Scenario: " d
        (tagString (effectiveOptions a mo)))
  · exact congrArg
      (fun s => HostReg.testOnly s
        (RegisteredCb.passthrough (effectiveFn a)))
      (append_regroup "[ONLY] " "Scenario: " d
        (tagString (effectiveOptions a mo)))
  · exact congrArg
      (fun s => HostReg.test s (RegisteredCb.fixme "Test not implemented yet"))
      (append_regroup "[TODO] " "Scenario: " d
        (tagString (effectiveOptions a mo)))
  · exact congrArg
      (fun s => HostReg.testSkip s
        (RegisteredCb.passthrough (effectiveFn a)))
      (append_regroup "[SKIPPED] " "Scenario :" " "
        (jsTrim (d ++ tagString (effectiveOptions a mo))))
  · exact congrArg
      (fun s => HostReg.testOnly s
        (RegisteredCb.passthrough (effectiveFn a)))
      (append_regroup "[ONLY] " "Scenario :" " "
        (jsTrim (d ++ tagString (effectiveOptions a mo))))
  · exact congrArg
      (fun s => HostReg.test s (RegisteredCb.fixme "Test not implemented yet"))
      (append_regroup "[TODO] " "Scenario :" " "
        (jsTrim (d ++ tagString (effectiveOptions a mo))))

end GherkinLite

namespace GherkinLite

/-- C2 counterexample: in the part_005 dispatch an options record with an
empty tag list is truthy in JavaScript, so the title still carries the suffix
" - Tags: " (with an empty join), contradicting the claim that an empty tag
list yields no suffix. -/
theorem C2_counterexample :
    V5.makeScenario none "User logs in"
        (some (FnOrOptions.fnArg ()) : Option (FnOrOptions Unit))
        (some ⟨some []⟩)
      = HostReg.test "Scenario: User logs in - Tags: "
          (RegisteredCb.passthrough (some ()))
  ∧ ("Scenario: User logs in - Tags: " ≠ "Scenario: User logs in") :=
  ⟨by decide, by decide⟩

/-- C2 (amended): a scenario registration whose options record carries a tag
list with at least one element gets the suffix " - Tags: " followed by the
tags joined with single spaces in their given order — verbatim in the
part_005 and part_006 variants; in the part_003 variant the title is
"Scenario : " followed by the trim of the description concatenated with that
suffix, so the suffix appears after the trimmed description (for example
"Scenario : User logs in - Tags: @smoke @auth").  A registration with an
absent options record gets no suffix in all three variants.  A registration
whose options record lacks a tags field gets no suffix in part_005 and
part_003, but in part_006 the suffix " - Tags: undefined" (the gate there is
the options record itself).  A present but empty tag list is truthy in
JavaScript: it yields the suffix " - Tags: " with the empty join in part_005
and part_006, which part_003's trailing trim shortens to " - Tags:". -/
theorem C2_tag_suffix {Cb : Type} (d : String) (f : Cb) (t : String)
    (ts : List String) :
    V5.makeScenario none d (some (FnOrOptions.fnArg f))
        (some ⟨some (t :: ts)⟩)
      = HostReg.test
          ("Scenario: " ++ d ++
            (" - Tags: " ++ String.intercalate " " (t :: ts)))
          (RegisteredCb.passthrough (some f))
  ∧ V5.makeScenario none d (some (FnOrOptions.fnArg f)) (some ⟨none⟩)
      = HostReg.test ("Scenario: " ++ d)
          (RegisteredCb.passthrough (some f))
  ∧ V5.makeScenario none d (some (FnOrOptions.fnArg f)) none
      = HostReg.test ("Scenario: " ++ d)
          (RegisteredCb.passthrough (some f))
  ∧ V5.makeScenario none d (some (FnOrOptions.fnArg f)) (some ⟨some []⟩)
      = HostReg.test ("Scenario: " ++ d ++ " - Tags: ")
          (RegisteredCb.passthrough (some f))
  ∧ V6.scenario d f (some ⟨some (t :: ts)⟩)
      = HostReg.test
          ("Scenario: " ++ d ++
            (" - Tags: " ++ String.intercalate " " (t :: ts)))
          (RegisteredCb.passthrough (some f))
  ∧ V6.scenario d f none
      = HostReg.test ("Scenario: " ++ d)
          (RegisteredCb.passthrough (some f))
  ∧ V6.scenario d f (some ⟨none⟩)
      = HostReg.test ("Scenario: " ++ d ++ " - Tags: undefined")
          (RegisteredCb.passthrough (some f))
  ∧ V6.scenario d f (some ⟨some []⟩)
      = HostReg.test ("Scenario: " ++ d ++ " - Tags: ")
          (RegisteredCb.passthrough (some f))
  ∧ V3.makeScenario none d (some (FnOrOptions.fnArg f))
        (some ⟨some (t :: ts)⟩)
      = HostReg.test
          ("Scenario : " ++
            jsTrim (d ++ (" - Tags: " ++ String.intercalate " " (t :: ts))))
          (RegisteredCb.passthrough (some f))
  ∧ V3.makeScenario none d (some (FnOrOptions.fnArg f)) (some ⟨none⟩)
      = HostReg.test ("Scenario : " ++ jsTrim d)
          (RegisteredCb.passthrough (some f))
  ∧ V3.makeScenario none d (some (FnOrOptions.fnArg f)) none
      = HostReg.test ("Scenario : " ++ jsTrim d)
          (RegisteredCb.passthrough (some f))
  ∧ V3.makeScenario none d (some (FnOrOptions.fnArg f)) (some ⟨some []⟩)
      = HostReg.test ("Scenario : " ++ jsTrim (d ++ " - Tags: "))
          (RegisteredCb.passthrough (some f))
  ∧ regTitle (V3.makeScenario none "User logs in"
        (some (FnOrOptions.fnArg f)) (some ⟨some ["@smoke", "@auth"]⟩))
      = "Scenario : User logs in - Tags: @smoke @auth"
  ∧ regTitle (V3.makeScenario none "User logs in"
        (some (FnOrOptions.fnArg f)) (some ⟨some []⟩))
      = "Scenario : User logs in - Tags:" := by
  refine ⟨rfl, ?_, ?_, rfl, rfl, ?_, rfl, rfl, rfl, ?_, ?_, rfl, rfl, rfl⟩
  · exact congrArg (fun s => HostReg.test s
      (RegisteredCb.passthrough (some f)))
      (String.append_empty ("Scenario: " ++ d))
  · exact congrArg (fun s => HostReg.test s
      (RegisteredCb.passthrough (some f)))
      (String.append_empty ("Scenario: " ++ d))
  · exact congrArg (fun s => HostReg.test s
      (RegisteredCb.passthrough (some f)))
      (String.append_empty ("Scenario: " ++ d))
  · exact congrArg (fun s => HostReg.test ("Scenario : " ++ jsTrim s)
      (RegisteredCb.passthrough (some f)))
      (String.append_empty d)
  · exact congrArg (fun s => HostReg.test ("Scenario : " ++ jsTrim s)
      (RegisteredCb.passthrough (some f)))
      (String.append_empty d)

/-- C5 counterexample: in the part_003 dispatch scenario.todo produces the
title "[TODO] Scenario : Implement forgot-password flow", which does not
begin with "[TODO] Scenario: " as the claim states. -/
theorem C5_counterexample :
    regTitle (V3.makeScenario (some Modifier.todo)
        "Implement forgot-password flow"
        (none : Option (FnOrOptions Unit)) none)
      = "[TODO] Scenario : Implement forgot-password flow"
  ∧ beginsWith "[TODO] Scenario: "
      (regTitle (V3.makeScenario (some Modifier.todo)
        "Implement forgot-password flow"
        (none : Option (FnOrOptions Unit)) none))
      = false :=
  ⟨by decide, by decide⟩

/-- C5 (amended): scenario.todo always registers via the standard test
primitive with the fixed placeholder callback that marks the test as not
implemented ("Test not implemented yet"); any accidentally passed caller
callback is discarded and the registration is identical to the one made with
no callback at all.  The title begins "[TODO] Scenario: " in the part_005
variant and "[TODO] Scenario : " in the part_003 variant. -/
theorem C5_todo_placeholder {Cb : Type} (d : String)
    (a : Option (FnOrOptions Cb)) (mo : Option ScenarioOptions) (f : Cb) :
    V5.makeScenario (some Modifier.todo) d a mo =
      HostReg.test
        ("[TODO] Scenario: " ++ d ++ tagString (effectiveOptions a mo))
        (RegisteredCb.fixme "Test not implemented yet")
  ∧ V3.makeScenario (some Modifier.todo) d a mo =
      HostReg.test
        ("[TODO] Scenario : " ++
          jsTrim (d ++ tagString (effectiveOptions a mo)))
        (RegisteredCb.fixme "Test not implemented yet")
  ∧ V5.makeScenario (some Modifier.todo) d (some (FnOrOptions.fnArg f)) none
      = V5.makeScenario (some Modifier.todo) d
          (none : Option (FnOrOptions Cb)) none
  ∧ V3.makeScenario (some Modifier.todo) d (some (FnOrOptions.fnArg f)) none
      = V3.makeScenario (some Modifier.todo) d
          (none : Option (FnOrOptions Cb)) none := by
  refine ⟨?_, ?_, rfl, rfl⟩
  · exact congrArg
      (fun s => HostReg.test s (RegisteredCb.fixme "Test not implemented yet"))
      (append_regroup "[TODO] " "Scenario: " d
        (tagString (effectiveOptions a mo)))
  · exact congrArg
      (fun s => HostReg.test s (RegisteredCb.fixme "Test not implemented yet"))
      (append_regroup "[TODO] " "Scenario :" " "
        (jsTrim (d ++ tagString (effectiveOptions a mo))))

end GherkinLite

namespace GherkinLite

/-- C3 counterexample: the scenarioOutline of src/gherkinSyntax.ts registers
through the grouping primitive test.describe, not the standard test
primitive, and renders the example with JSON.stringify rather than as
field=value pairs. -/
theorem C3_counterexample :
    TsSrc.scenarioOutline "addition"
        [[("a", JsValue.num 1), ("b", JsValue.num 2)]] ()
      = [OutlineReg.describeBlock
          "Scenario Outline: addition | \x7b\"a\":1,\"b\":2\x7d" ()
          [("a", JsValue.num 1), ("b", JsValue.num 2)]]
  ∧ isOutlineTest
      (OutlineReg.describeBlock
        "Scenario Outline: addition | \x7b\"a\":1,\"b\":2\x7d" ()
        ([("a", JsValue.num 1), ("b", JsValue.num 2)] : Example)) = false
  ∧ ("Scenario Outline: addition | \x7b\"a\":1,\"b\":2\x7d"
      ≠ "Scenario Outline: addition | a=1, b=2") :=
  ⟨by decide, by decide, by decide⟩

/-- C3 (amended): for an example list of length N, the part_004 outline
expansions make exactly N registrations with the host's standard test
primitive, one per example in input order, each titled "Scenario Outline: "
++ title ++ " | " followed by the field=value pairs in key iteration order
joined with ", ", with the example bound into the registered callback; the
src/gherkinSyntax.ts variant also makes exactly N registrations in input
order, but through the grouping primitive test.describe and with the example
rendered by JSON.stringify instead of field=value pairs. -/
theorem C3_outline_expansion {F : Type} (title : String)
    (examples : List Example) (fn : F) :
    V4.scenarioOutline title examples fn =
      examples.map (fun ex =>
        OutlineReg.test
          ("Scenario Outline: " ++ title ++ " | " ++
            String.intercalate ", "
              (ex.map fun kv => kv.1 ++ "=" ++ jsValToString kv.2))
          fn ex)
  ∧ (V4.scenarioOutline title examples fn).length = examples.length
  ∧ TsSrc.scenarioOutline title examples fn =
      examples.map (fun ex =>
        OutlineReg.describeBlock
          ("Scenario Outline: " ++ title ++ " | " ++ jsonStringify ex)
          fn ex)
  ∧ (TsSrc.scenarioOutline title examples fn).length = examples.length :=
  ⟨V4.outlineV4_eq_map title examples fn,
    V4.outlineV4_length title examples fn,
    TsSrc.outlineTs_eq_map title examples fn,
    TsSrc.outlineTs_length title examples fn⟩

/-- C4 counterexample: the given helper of src/gherkinSyntax.ts (the same
expression appears in part_004/005/006) interpolates the description
verbatim, so for a description with leading and trailing whitespace the
composed label is not "Given" ++ " " ++ trim(description). -/
theorem C4_counterexample :
    (TsSrc.given "  the user is logged in " ()).title
      = "Given   the user is logged in "
  ∧ ("Given   the user is logged in "
      ≠ "Given" ++ " " ++ jsTrim "  the user is logged in ") :=
  ⟨by decide, by decide⟩

/-- C4 (amended): the label helper of part_003 returns exactly the keyword,
one space, and the trimmed description (leading/trailing whitespace removed,
interior whitespace preserved, no other transformation), for every keyword of
its union type and every description including empty and all-whitespace
strings; the step helpers of src/gherkinSyntax.ts and part_004/005/006 do not
go through that helper and interpolate the description verbatim, with no
trimming. -/
theorem C4_label_composition {Cb : Type} (k : V3.Keyword) (d : String)
    (f : Cb) :
    V3.label k d = k.text ++ " " ++ jsTrim d
  ∧ V3.label V3.Keyword.givenK "  the user is logged in "
      = "Given the user is logged in"
  ∧ (TsSrc.given d f).title = "Given " ++ d
  ∧ (TsSrc.whenStep d f).title = "When " ++ d
  ∧ (TsSrc.thenStep d f).title = "Then " ++ d
  ∧ (TsSrc.andStep d f).title = "And " ++ d
  ∧ (TsSrc.butStep d f).title = "But " ++ d :=
  ⟨rfl, by decide, rfl, rfl, rfl, rfl, rfl⟩

/-- C7: an empty example list produces zero registrations (the expansion is a
total function, raising no error), and two successive calls of the expansion
on the same example list produce the concatenation of two registration sets
of N registrations each — 2 * N registrations in total, the two halves
carrying identical title sequences: no deduplication happens within or
across calls, in the part_004 and src/gherkinSyntax.ts variants alike. -/
theorem C7_outline_empty_and_no_dedup {F : Type} (title : String)
    (examples : List Example) (fn : F) :
    V4.scenarioOutline title ([] : List Example) fn = []
  ∧ TsSrc.scenarioOutline title ([] : List Example) fn = []
  ∧ (V4.scenarioOutline title examples fn ++
      V4.scenarioOutline title examples fn).length = 2 * examples.length
  ∧ (V4.scenarioOutline title examples fn ++
      V4.scenarioOutline title examples fn).map outlineTitle
      = (V4.scenarioOutline title examples fn).map outlineTitle ++
        (V4.scenarioOutline title examples fn).map outlineTitle
  ∧ (TsSrc.scenarioOutline title examples fn ++
      TsSrc.scenarioOutline title examples fn).length
      = 2 * examples.length := by
  refine ⟨rfl, rfl, ?_, List.map_append _ _ _, ?_⟩
  · rw [List.length_append, V4.outlineV4_length, Nat.two_mul]
  · rw [List.length_append, TsSrc.outlineTs_length, Nat.two_mul]

end GherkinLite
